import Mathlib

/-!
A shallow embedding of the ecs-cpp `ECSManager` (the current vector-based
variant in `EcsCpp.h`, together with `EntityID.h` and `EcsUtil.h`) and proofs
about the specification claims.

Modelling conventions:
* `size_t` values are modelled as `Nat`; `SIZE_MAX` is the concrete constant
  `2 ^ 64 - 1`.  Subtractions in the source are guarded so that they never
  underflow on the states the theorems speak about, hence truncated `Nat`
  subtraction agrees with `size_t` arithmetic there.
* The component-type list `TComponents...` of the manager template is modelled
  by an index type `Fin n`; each column stores `Nat` values (the operations
  are parametric in the stored value type, so this loses no behaviour).
* C++ exceptions are modelled by returning the state at throw-time together
  with an `Option EcsErr`; read-only accessors return `Except EcsErr _`.
* Out-of-bounds vector reads (undefined behaviour in C++) are modelled by
  `List.getD` with the element type's default value; every theorem below only
  evaluates the model on states where all accesses are in bounds.
-/

namespace EcsCpp

/-- `SIZE_MAX` of the 64-bit target. -/
def SIZE_MAX : Nat := 2 ^ 64 - 1

/-- Error kinds thrown by the manager (`std::logic_error`,
`std::out_of_range`, `std::invalid_argument`), with their messages. -/
inductive EcsErr where
  | logicError (msg : String)
  | outOfRange (msg : String)
  | invalidArgument (msg : String)
deriving DecidableEq, Repr

instance {ε α : Type} [DecidableEq ε] [DecidableEq α] : DecidableEq (Except ε α) :=
  fun a b =>
    match a, b with
    | .ok x, .ok y => decidable_of_iff (x = y) (by simp)
    | .error x, .error y => decidable_of_iff (x = y) (by simp)
    | .ok _, .error _ => isFalse (by simp)
    | .error _, .ok _ => isFalse (by simp)

/-- `ComponentRange<TComponent>`: the per-type range-tracker entry with its
C++ member initializers. -/
structure ComponentRange where
  componentPresent : Bool := false
  firstSlot : Nat := SIZE_MAX
  lastSlot : Nat := 0
deriving DecidableEq, Repr

/-- `ComponentRangesMatch`: the pruning interval computed by
`GetSystemFilterMatch`. -/
structure ComponentRangesMatch where
  firstSlot : Nat
  lastSlot : Nat
deriving DecidableEq, Repr

/-- `Entity`: one slot record; `activeComponents` is the per-type presence
flag tuple, `id` the stored `EntityID` (its raw `size_t`). -/
structure Entity (n : Nat) where
  activeComponents : Fin n → Bool
  active : Bool
  id : Nat

/-- The default-constructed `Entity{}` (all presence flags false, inactive,
`id = EntityID(0)`). -/
def defaultEntity (n : Nat) : Entity n :=
  { activeComponents := fun _ => false, active := false, id := 0 }

/-- The state of `ECSManager<TComponents...>` with `n` declared component
types: the slot vector, the per-type value columns, the per-type range
tracker, and the two counters. -/
structure ECS (n : Nat) where
  endSlot : Nat
  nrEntities : Nat
  entities : List (Entity n)
  componentArrays : Fin n → List Nat
  componentRanges : Fin n → ComponentRange

/-- The default-constructed manager. -/
def ECS.init (n : Nat) : ECS n :=
  { endSlot := 0, nrEntities := 0, entities := [],
    componentArrays := fun _ => [], componentRanges := fun _ => {} }

/-- Read `entities[i]` (out-of-bounds reads, UB in C++, yield the default
record; the theorems stay in bounds). -/
def entAt (s : ECS n) (i : Nat) : Entity n :=
  s.entities.getD i (defaultEntity n)

/-- Replace `entities[i]` (no-op when out of bounds, matching the guarded
uses in the source). -/
def setEnt (s : ECS n) (i : Nat) (e : Entity n) : ECS n :=
  { s with entities := s.entities.set i e }

/-- Set the presence flag of component `t` on one entity record. -/
def setFlag (e : Entity n) (t : Fin n) (b : Bool) : Entity n :=
  { e with activeComponents := fun t' => if t' = t then b else e.activeComponents t' }

/-- Write `v` into column `t` at slot `i`. -/
def setColumnVal (s : ECS n) (t : Fin n) (i : Nat) (v : Nat) : ECS n :=
  { s with componentArrays :=
      fun t' => if t' = t then (s.componentArrays t').set i v else s.componentArrays t' }

/-- `EntityID::operator bool` / `ValidateEntityID`: throws
`std::logic_error("ID not initialized!")` when the id is the `SIZE_MAX`
sentinel. -/
def ValidateEntityID (id : Nat) : Option EcsErr :=
  if id = SIZE_MAX then some (.logicError "ID not initialized!") else none

/-- `ValidateID`: throws `std::out_of_range` when `index >= endSlot`. -/
def ValidateID (s : ECS n) (index : Nat) : Option EcsErr :=
  if s.endSlot ≤ index then some (.outOfRange "Accessing outside of endSlot!") else none

/-- `HasInternal<T>`: reads the presence flag directly from
`entities[id].activeComponents`, with no bounds check. -/
def HasInternal (t : Fin n) (id : Nat) (s : ECS n) : Bool :=
  (entAt s id).activeComponents t

/-- The scan loop of `GetFirstEmptySlot`, fuelled (the loop body runs at most
`endSlot` times, so fuel `endSlot` reproduces it exactly). -/
def scanFirstEmptyAux (s : ECS n) : Nat → Nat → Nat
  | 0, slot => slot
  | fuel + 1, slot =>
    if slot < s.endSlot ∧ (entAt s slot).active then scanFirstEmptyAux s fuel (slot + 1)
    else slot

/-- The value of the `slot` variable after the scan loop of
`GetFirstEmptySlot`. -/
def scanFirstEmpty (s : ECS n) : Nat :=
  scanFirstEmptyAux s s.endSlot 0

/-- The state effect of `GetFirstEmptySlot`: `if (slot == endSlot) endSlot++`. -/
def afterAlloc (s : ECS n) : ECS n :=
  if scanFirstEmpty s = s.endSlot then { s with endSlot := s.endSlot + 1 } else s

/-- `GetFirstEmptySlot`: scans for the first inactive slot below `endSlot`;
extends the frontier when none is found.  Returns the updated state and the
slot. -/
def GetFirstEmptySlot (s : ECS n) : ECS n × Nat :=
  (afterAlloc s, scanFirstEmpty s)

/-- `GetLastSlot`. -/
def GetLastSlot (s : ECS n) : Nat :=
  if s.endSlot = 0 then 0 else s.endSlot - 1

/-- `UpdateComponentRange<T>`: transcribed exactly, including the else-branch
that overwrites `lastSlot` with the new id (rather than taking a max) and
leaves `firstSlot` untouched. -/
def UpdateComponentRange (t : Fin n) (id : Nat) (s : ECS n) : ECS n × Option EcsErr :=
  if HasInternal t id s = false then (s, some (.logicError "Not a valid id!"))
  else
    let r := s.componentRanges t
    let r' :=
      if r.componentPresent = false then
        { componentPresent := true, firstSlot := min id r.firstSlot,
          lastSlot := max id r.lastSlot : ComponentRange }
      else
        { r with lastSlot := id }
    ({ s with componentRanges := fun t' => if t' = t then r' else s.componentRanges t' }, none)

/-- The presence-flag mutation of `Add` (`isActive = true` through the
`GetComponent` reference). -/
def flagOn (t : Fin n) (id : Nat) (s : ECS n) : ECS n :=
  setEnt s id (setFlag (entAt s id) t true)

/-- `ECSManager::Add<T>(entityId, component)` in source statement order:
validate the id, bounds-check via `GetComponent`, reject an already-present
component, set the flag, write the value (after the second bounds check in
`GetComponentData`), update the range tracker. -/
def Add (t : Fin n) (id : Nat) (v : Nat) (s : ECS n) : ECS n × Option EcsErr :=
  match ValidateEntityID id with
  | some e => (s, some e)
  | none =>
    match ValidateID s id with
    | some e => (s, some e)
    | none =>
      if HasInternal t id s then (s, some (.logicError "Component already added!"))
      else
        match ValidateID (flagOn t id s) id with
        | some e => (flagOn t id s, some e)
        | none => UpdateComponentRange t id (setColumnVal (flagOn t id s) t id v)

/-- The vector growth step of `AddEntity`: when the allocated slot is one
past the vector, push a default record (with `id = slot`) and push a default
value onto every column. -/
def growVectors (s : ECS n) (slot : Nat) : ECS n :=
  if slot = s.entities.length then
    { s with entities := s.entities ++ [{ activeComponents := fun _ => false,
                                          active := false, id := slot }],
             componentArrays := fun t => s.componentArrays t ++ [0] }
  else s

/-- The grown state of `AddEntity` on which the slot is activated. -/
def allocState (s : ECS n) : ECS n :=
  growVectors (afterAlloc s) (scanFirstEmpty s)

/-- The activation step of `AddEntity`: `entity.active = true`, clear all
presence flags, `nrEntities++`. -/
def activateSlot (s : ECS n) (slot : Nat) : ECS n :=
  { setEnt s slot { entAt s slot with active := true, activeComponents := fun _ => false }
      with nrEntities := s.nrEntities + 1 }

/-- The id returned by `AddEntity` (`entity.id` of the allocated slot). -/
def newId (s : ECS n) : Nat :=
  (entAt (allocState s) (scanFirstEmpty s)).id

/-- `ECSManager::AddEntity`: allocate a slot, grow the vector and every
column in lockstep when the slot is fresh, bounds-check via `GetEntity`,
activate the record with cleared presence flags, bump `nrEntities`, and -
when `EntityID` is itself a declared component type (`eid = some t`) - add
the entity's own handle as that component. -/
def AddEntity (eid : Option (Fin n)) (s : ECS n) : (ECS n × Nat) × Option EcsErr :=
  match ValidateID (allocState s) (scanFirstEmpty s) with
  | some e => ((allocState s, scanFirstEmpty s), some e)
  | none =>
    match eid with
    | some t =>
      (((Add t (newId s) (newId s) (activateSlot (allocState s) (scanFirstEmpty s))).1,
         newId s),
       (Add t (newId s) (newId s) (activateSlot (allocState s) (scanFirstEmpty s))).2)
    | none => ((activateSlot (allocState s) (scanFirstEmpty s), newId s), none)

/-- The fold of `Add` calls performed by `BuildEntity` over its argument
pack; the first failure propagates (later adds are not attempted, earlier
ones stay applied). -/
def addAll (id : Nat) : List (Fin n × Nat) → ECS n → ECS n × Option EcsErr
  | [], s => (s, none)
  | (t, v) :: rest, s =>
    match Add t id v s with
    | (s', some e) => (s', some e)
    | (s', none) => addAll id rest s'

/-- `ECSManager::BuildEntity`: `AddEntity` followed by one `Add` per supplied
component. -/
def BuildEntity (comps : List (Fin n × Nat)) (eid : Option (Fin n)) (s : ECS n) :
    (ECS n × Nat) × Option EcsErr :=
  match AddEntity eid s with
  | ((s1, id), some e) => ((s1, id), some e)
  | ((s1, id), none) => (((addAll id comps s1).1, id), (addAll id comps s1).2)

/-- The deactivation step of `RemoveEntity` (`entity.active = false`). -/
def deactivate (id : Nat) (s : ECS n) : ECS n :=
  setEnt s id { entAt s id with active := false }

/-- The frontier-shrink step of `RemoveEntity`:
`if (GetLastSlot() == entity.id.GetId()) endSlot--`. -/
def shrinkTail (s : ECS n) (entId : Nat) : ECS n :=
  if GetLastSlot s = entId then { s with endSlot := s.endSlot - 1 } else s

/-- `ECSManager::RemoveEntity`: validate, require the slot active, deactivate
it, shrink the frontier when the stored id is the last slot, decrement
`nrEntities` (the decrement never underflows on well-formed states, where a
successful removal implies `nrEntities ≥ 1`, so truncated subtraction agrees
with `size_t`). -/
def RemoveEntity (id : Nat) (s : ECS n) : ECS n × Option EcsErr :=
  match ValidateEntityID id with
  | some e => (s, some e)
  | none =>
    match ValidateID s id with
    | some e => (s, some e)
    | none =>
      if (entAt s id).active = false then (s, some (.logicError "Entity not active!"))
      else
        ({ shrinkTail (deactivate id s) (entAt s id).id with
             nrEntities := (shrinkTail (deactivate id s) (entAt s id).id).nrEntities - 1 },
         none)

/-- `ECSManager::Remove<T>`: validate, require the presence flag true, clear
it; nothing else is touched. -/
def Remove (t : Fin n) (id : Nat) (s : ECS n) : ECS n × Option EcsErr :=
  match ValidateEntityID id with
  | some e => (s, some e)
  | none =>
    match ValidateID s id with
    | some e => (s, some e)
    | none =>
      if HasInternal t id s = false then (s, some (.logicError "Component not active!"))
      else (setEnt s id (setFlag (entAt s id) t false), none)

/-- `ECSManager::Has<T1,...,Tn>`: validates only that the handle is
initialized, then ANDs the presence flags read by `HasInternal` (which
performs no frontier bounds check). -/
def Has (ts : List (Fin n)) (id : Nat) (s : ECS n) : Except EcsErr Bool :=
  match ValidateEntityID id with
  | some e => .error e
  | none => .ok (ts.all fun t => HasInternal t id s)

/-- `ECSManager::Get<T>`: validate the handle, require the presence flag
(else `std::invalid_argument`), bounds-check via `GetComponentData`, return
the column value. -/
def Get (t : Fin n) (id : Nat) (s : ECS n) : Except EcsErr Nat :=
  match ValidateEntityID id with
  | some e => .error e
  | none =>
    if HasInternal t id s = false then
      .error (.invalidArgument "Bad access, component not present on this entity.")
    else
      match ValidateID s id with
      | some e => .error e
      | none => .ok ((s.componentArrays t).getD id 0)

/-- `ECSManager::Size`. -/
def Size (s : ECS n) : Nat := s.nrEntities

/-- `ECSManager::ContainerSize` (`entities.size()`). -/
def ContainerSize (s : ECS n) : Nat := s.entities.length

/-- `System::GetSystemFilterMatch<TSystemComponents...>`: folds over the
declared component ranges in declaration order, considering those whose type
is in the requested set and whose `componentPresent` flag is set. -/
def GetSystemFilterMatch (ts : List (Fin n)) (s : ECS n) : Option ComponentRangesMatch :=
  let sel : Fin n → Bool := fun t => decide (t ∈ ts) && (s.componentRanges t).componentPresent
  let found := (List.finRange n).any sel
  let firstSlot := (List.finRange n).foldl
    (fun acc t => if sel t then max (s.componentRanges t).firstSlot acc else acc) 0
  let lastSlot := (List.finRange n).foldl
    (fun acc t => if sel t then min (s.componentRanges t).lastSlot acc else acc) SIZE_MAX
  if found then some { firstSlot := firstSlot, lastSlot := lastSlot } else none

/-- `System::ValidateInvariant`: throws
`std::logic_error("Invariant broken! FirstSlot > LastSlot")` when the match
interval is inverted. -/
def ValidateInvariant (m : Option ComponentRangesMatch) : Option EcsErr :=
  match m with
  | some mm =>
    if mm.lastSlot < mm.firstSlot then some (.logicError "Invariant broken! FirstSlot > LastSlot")
    else none
  | none => none

/-- `System::partSize`. -/
def partSize (s : ECS n) (totalParts : Nat) : Nat :=
  ContainerSize s / totalParts

/-- `System::hasRemainder`. -/
def hasRemainder (s : ECS n) (totalParts : Nat) : Bool :=
  decide (ContainerSize s % totalParts ≠ 0)

/-- `System::endIteratorOffset`. -/
def endIteratorOffset (s : ECS n) (part totalParts : Nat) : Nat :=
  if hasRemainder s totalParts ∧ part = totalParts - 1 then 0
  else ContainerSize s - (part + 1) * partSize s totalParts

/-- `System::beginIteratorOffset`. -/
def beginIteratorOffset (s : ECS n) (part totalParts : Nat) : Nat :=
  part * partSize s totalParts

/-- The index of `System::ecsBegin` relative to `entities.begin()`:
`beginIteratorOffset() + componentRangesMatch->firstSlot`. -/
def sysBeginIdx (m : ComponentRangesMatch) (s : ECS n) (part totalParts : Nat) : Nat :=
  beginIteratorOffset s part totalParts + m.firstSlot

/-- The index of `System::ecsEnd` relative to `entities.begin()`:
`endSlot - endIteratorOffset() - (ContainerSize() - 1 - lastSlot)`, computed
in `Int` to expose a would-be before-begin iterator instead of clamping. -/
def sysEndIdx (m : ComponentRangesMatch) (s : ECS n) (part totalParts : Nat) : Int :=
  (s.endSlot : Int) - endIteratorOffset s part totalParts
    - (ContainerSize s - 1 - m.lastSlot : Nat)

/-- `System::HasGivenComponents` at slot `i`:
`entities[i].active && Has<Ts...>(entities[i].id)` (a thrown `Has` never
happens on the states considered; it is modelled as a non-match). -/
def HasGivenComponents (ts : List (Fin n)) (s : ECS n) (i : Nat) : Bool :=
  (entAt s i).active &&
    (match Has ts (entAt s i).id s with
     | .ok b => b
     | .error _ => false)

/-- The slots visited by iterating `GetSystemPart<Ts...>(part, totalParts)`
from `begin()` to `end()`: the matching slots in `[ecsBegin, ecsEnd)` (empty
when no range matches; a begin past end, UB in C++, is modelled as empty and
never reached by the theorems below). -/
def systemVisits (ts : List (Fin n)) (part totalParts : Nat) (s : ECS n) : List Nat :=
  match GetSystemFilterMatch ts s with
  | none => []
  | some m =>
    let b := sysBeginIdx m s part totalParts
    let e := sysEndIdx m s part totalParts
    if (b : Int) ≤ e then
      ((List.range (e.toNat - b)).map (fun k => b + k)).filter (HasGivenComponents ts s)
    else []

/-- The structural well-formedness invariant of a manager state: the
frontier is within the vector, all columns have the vector's length, active
slots lie below the frontier, `nrEntities` counts the active slots, and each
record stores its own index as id.  (The component ranges are deliberately
not constrained: see the C2/C3 results.) -/
structure WF (s : ECS n) : Prop where
  endSlot_le : s.endSlot ≤ s.entities.length
  cols_len : ∀ t : Fin n, (s.componentArrays t).length = s.entities.length
  active_lt : ∀ i, i < s.entities.length → (entAt s i).active = true → i < s.endSlot
  count_eq : s.nrEntities = s.entities.countP (fun e => e.active)
  id_eq : ∀ i, i < s.entities.length → (entAt s i).id = i

/-- The states reachable from the default-constructed manager by the public
mutating interface (`eid` records, once and for all, whether `EntityID` is
among the declared component types). -/
inductive Reachable (n : Nat) (eid : Option (Fin n)) : ECS n → Prop where
  | init : Reachable n eid (ECS.init n)
  | addEntity {s : ECS n} : Reachable n eid s → Reachable n eid (AddEntity eid s).1.1
  | add {s : ECS n} (t : Fin n) (id v : Nat) :
      Reachable n eid s → Reachable n eid (Add t id v s).1
  | buildEntity {s : ECS n} (comps : List (Fin n × Nat)) :
      Reachable n eid s → Reachable n eid (BuildEntity comps eid s).1.1
  | removeEntity {s : ECS n} (id : Nat) :
      Reachable n eid s → Reachable n eid (RemoveEntity id s).1
  | remove {s : ECS n} (t : Fin n) (id : Nat) :
      Reachable n eid s → Reachable n eid (Remove t id s).1

/-! Concrete scenario states used by the counterexample and failing-input
theorems.  All are built with a single declared component type (`n = 1`,
not containing `EntityID`, i.e. `eid = none`). -/

/-- The single declared component type of the one-component manager. -/
def comp0 : Fin 1 := ⟨0, Nat.zero_lt_one⟩

/-- Two fresh entities (slots 0 and 1). -/
def twoEnts : ECS 1 := (AddEntity none (AddEntity none (ECS.init 1)).1.1).1.1

/-- Three fresh entities (slots 0, 1 and 2). -/
def threeEnts : ECS 1 := (AddEntity none twoEnts).1.1

/-- Four fresh entities (slots 0, 1, 2 and 3). -/
def fourEnts : ECS 1 := (AddEntity none threeEnts).1.1

/-- Four entities with the component added to slots 1, 2 and 3 (in that
order), leaving slot 0 without it: range tracker `[1, 3]`. -/
def c1State : ECS 1 :=
  (Add comp0 3 3 (Add comp0 2 2 (Add comp0 1 1 fourEnts).1).1).1

/-- Two entities; the component added first to slot 1, then to slot 0.  The
second `UpdateComponentRange` overwrites `lastSlot` with 0 while leaving
`firstSlot = 1`. -/
def c2State : ECS 1 :=
  (Add comp0 0 7 (Add comp0 1 5 twoEnts).1).1

/-- Two entities; slot 1 gets the component and is then removed.  The tail
removal shrinks `endSlot` to 1 while `entities.size()` stays 2 and slot 1's
presence flag stays set. -/
def c5State : ECS 1 :=
  (RemoveEntity 1 (Add comp0 1 7 twoEnts).1).1

/-- Three entities; slot 1 removed (leaving a hole), then slot 2 removed
(shrinking `endSlot` to 2).  Slot 0 is now the highest-indexed active
entity, and slot 1 = `endSlot - 1` is inactive. -/
def c6State : ECS 1 :=
  (RemoveEntity 2 (RemoveEntity 1 threeEnts).1).1


/-! ## Helper lemmas -/

theorem countP_set_balance (p : α → Bool) (l : List α) (i : Nat) (a : α) (h : i < l.length) :
    (l.set i a).countP p + (if p (l.get ⟨i, h⟩) then 1 else 0) =
      l.countP p + (if p a then 1 else 0) := by
  induction l generalizing i with
  | nil => cases h
  | cons x xs ih =>
    cases i with
    | zero =>
      simp only [List.set, List.get, List.countP_cons]
      omega
    | succ j =>
      have hj : j < xs.length := by simpa using h
      have := ih j hj
      simp only [List.set, List.get, List.countP_cons]
      omega

theorem countP_set_deactivate (p : α → Bool) (l : List α) (i : Nat) (a : α) (h : i < l.length)
    (hold : p (l.get ⟨i, h⟩) = true) (hnew : p a = false) :
    (l.set i a).countP p + 1 = l.countP p := by
  have hb := countP_set_balance p l i a h
  rw [hold, hnew] at hb
  simp at hb
  omega

theorem countP_set_activate (p : α → Bool) (l : List α) (i : Nat) (a : α) (h : i < l.length)
    (hold : p (l.get ⟨i, h⟩) = false) (hnew : p a = true) :
    (l.set i a).countP p = l.countP p + 1 := by
  have hb := countP_set_balance p l i a h
  rw [hold, hnew] at hb
  simp at hb
  omega

theorem entAt_setEnt_self (s : ECS n) (i : Nat) (e : Entity n) (h : i < s.entities.length) :
    entAt (setEnt s i e) i = e := by
  unfold entAt setEnt
  simp [List.getElem?_set_self h]

theorem entAt_setEnt_ne (s : ECS n) (i j : Nat) (e : Entity n) (h : i ≠ j) :
    entAt (setEnt s i e) j = entAt s j := by
  unfold entAt setEnt
  simp [List.getElem?_set_ne h]

theorem entAt_append_lt (s : ECS n) (l : List (Entity n)) (j : Nat)
    (h : j < s.entities.length) :
    ({ s with entities := s.entities ++ l } : ECS n).entities.getD j (defaultEntity n) =
      entAt s j := by
  unfold entAt
  simp [List.getElem?_append_left h]

theorem entAt_eq_get (s : ECS n) (i : Nat) (h : i < s.entities.length) :
    entAt s i = s.entities.get ⟨i, h⟩ := by
  unfold entAt
  simp [List.getElem?_eq_getElem h]

theorem scanFirstEmptyAux_le (s : ECS n) :
    ∀ fuel k, k ≤ s.endSlot → scanFirstEmptyAux s fuel k ≤ s.endSlot := by
  intro fuel
  induction fuel with
  | zero => intro k hk; simpa [scanFirstEmptyAux] using hk
  | succ m ih =>
    intro k hk
    unfold scanFirstEmptyAux
    split
    · next hc => exact ih (k + 1) hc.1
    · exact hk

theorem scanFirstEmptyAux_stop (s : ECS n) :
    ∀ fuel k, s.endSlot ≤ fuel + k → scanFirstEmptyAux s fuel k < s.endSlot →
      (entAt s (scanFirstEmptyAux s fuel k)).active = false := by
  intro fuel
  induction fuel with
  | zero =>
    intro k hk hlt
    simp only [scanFirstEmptyAux] at hlt
    omega
  | succ m ih =>
    intro k hk hlt
    by_cases hc : k < s.endSlot ∧ (entAt s k).active = true
    · rw [scanFirstEmptyAux, if_pos hc] at hlt ⊢
      exact ih (k + 1) (by omega) hlt
    · rw [scanFirstEmptyAux, if_neg hc] at hlt ⊢
      rcases Bool.eq_false_or_eq_true (entAt s k).active with h | h
      · exact absurd ⟨hlt, h⟩ hc
      · exact h

theorem scanFirstEmptyAux_below (s : ECS n) :
    ∀ fuel k, (∀ j, j < k → (entAt s j).active = true) →
      ∀ j, j < scanFirstEmptyAux s fuel k → (entAt s j).active = true := by
  intro fuel
  induction fuel with
  | zero =>
    intro k hk j hj
    exact hk j (by simpa [scanFirstEmptyAux] using hj)
  | succ m ih =>
    intro k hk j hj
    by_cases hc : k < s.endSlot ∧ (entAt s k).active = true
    · rw [scanFirstEmptyAux, if_pos hc] at hj
      refine ih (k + 1) ?_ j hj
      intro j' hj'
      rcases Nat.lt_or_ge j' k with h | h
      · exact hk j' h
      · have : j' = k := by omega
        simpa [this] using hc.2
    · rw [scanFirstEmptyAux, if_neg hc] at hj
      exact hk j hj

theorem scanFirstEmpty_le (s : ECS n) : scanFirstEmpty s ≤ s.endSlot :=
  scanFirstEmptyAux_le s s.endSlot 0 (Nat.zero_le _)

theorem scanFirstEmpty_not_active (s : ECS n) (h : scanFirstEmpty s < s.endSlot) :
    (entAt s (scanFirstEmpty s)).active = false :=
  scanFirstEmptyAux_stop s s.endSlot 0 (by omega) h

theorem scanFirstEmpty_below_active (s : ECS n) :
    ∀ j, j < scanFirstEmpty s → (entAt s j).active = true :=
  scanFirstEmptyAux_below s s.endSlot 0 (fun j hj => absurd hj (Nat.not_lt_zero j))

/-! ## Preservation of the `WF` invariant -/

theorem wf_init : WF (ECS.init n) := by
  constructor
  · exact Nat.le_refl 0
  · intro t; rfl
  · intro i hi; exact absurd hi (Nat.not_lt_zero i)
  · rfl
  · intro i hi; exact absurd hi (Nat.not_lt_zero i)

theorem wf_setEnt (s : ECS n) (i : Nat) (e : Entity n) (hw : WF s)
    (ha : e.active = (entAt s i).active) (hid : e.id = (entAt s i).id) :
    WF (setEnt s i e) := by
  by_cases hl : i < s.entities.length
  · constructor
    · simpa [setEnt] using hw.endSlot_le
    · intro t; simpa [setEnt] using hw.cols_len t
    · intro j hj hact
      have hj' : j < s.entities.length := by simpa [setEnt] using hj
      by_cases hji : i = j
      · subst hji
        rw [entAt_setEnt_self s i e hl, ha] at hact
        exact hw.active_lt i hl hact
      · rw [entAt_setEnt_ne s i j e hji] at hact
        exact hw.active_lt j hj' hact
    · have hb := countP_set_balance (fun e => e.active) s.entities i e hl
      rw [← entAt_eq_get s i hl, ← ha] at hb
      have : (setEnt s i e).entities.countP (fun e => e.active) =
          s.entities.countP (fun e => e.active) := by
        simp only [setEnt]
        omega
      rw [this, ← hw.count_eq]
      rfl
    · intro j hj
      have hj' : j < s.entities.length := by simpa [setEnt] using hj
      by_cases hji : i = j
      · subst hji
        rw [entAt_setEnt_self s i e hl, hid]
        exact hw.id_eq i hl
      · rw [entAt_setEnt_ne s i j e hji]
        exact hw.id_eq j hj'
  · have hset : s.entities.set i e = s.entities :=
      List.set_eq_of_length_le (by omega)
    constructor
    · simpa [setEnt, hset] using hw.endSlot_le
    · intro t; simpa [setEnt, hset] using hw.cols_len t
    · intro j hj hact
      have hj' : j < s.entities.length := by simpa [setEnt, hset] using hj
      have : entAt (setEnt s i e) j = entAt s j := by simp [entAt, setEnt, hset]
      rw [this] at hact
      exact hw.active_lt j hj' hact
    · show s.nrEntities = (s.entities.set i e).countP _
      rw [hset]
      exact hw.count_eq
    · intro j hj
      have hj' : j < s.entities.length := by simpa [setEnt, hset] using hj
      have : entAt (setEnt s i e) j = entAt s j := by simp [entAt, setEnt, hset]
      rw [this]
      exact hw.id_eq j hj'

theorem wf_setColumnVal (s : ECS n) (t : Fin n) (i : Nat) (v : Nat) (hw : WF s) :
    WF (setColumnVal s t i v) := by
  constructor
  · exact hw.endSlot_le
  · intro t'
    simp only [setColumnVal]
    by_cases h : t' = t
    · simp [h, hw.cols_len t]
    · simp [h, hw.cols_len t']
  · exact hw.active_lt
  · exact hw.count_eq
  · exact hw.id_eq

theorem wf_rangesOnly (s : ECS n) (r : Fin n → ComponentRange) (hw : WF s) :
    WF { s with componentRanges := r } :=
  ⟨hw.endSlot_le, hw.cols_len, hw.active_lt, hw.count_eq, hw.id_eq⟩

theorem wf_UpdateComponentRange (t : Fin n) (id : Nat) (s : ECS n) (hw : WF s) :
    WF (UpdateComponentRange t id s).1 := by
  unfold UpdateComponentRange
  by_cases h : HasInternal t id s = false
  · rw [if_pos h]; exact hw
  · rw [if_neg h]; exact wf_rangesOnly s _ hw

theorem wf_flagOn (t : Fin n) (id : Nat) (s : ECS n) (hw : WF s) : WF (flagOn t id s) :=
  wf_setEnt s id _ hw rfl rfl

theorem wf_Add (t : Fin n) (id v : Nat) (s : ECS n) (hw : WF s) : WF (Add t id v s).1 := by
  unfold Add
  cases hVE : ValidateEntityID id with
  | some e => exact hw
  | none =>
    cases hVI : ValidateID s id with
    | some e => exact hw
    | none =>
      by_cases hH : HasInternal t id s = true
      · rw [if_pos hH]; exact hw
      · rw [if_neg hH]
        cases hVI1 : ValidateID (flagOn t id s) id with
        | some e => exact wf_flagOn t id s hw
        | none =>
          exact wf_UpdateComponentRange t id _ (wf_setColumnVal _ t id v (wf_flagOn t id s hw))

theorem wf_Remove (t : Fin n) (id : Nat) (s : ECS n) (hw : WF s) : WF (Remove t id s).1 := by
  unfold Remove
  cases hVE : ValidateEntityID id with
  | some e => exact hw
  | none =>
    cases hVI : ValidateID s id with
    | some e => exact hw
    | none =>
      by_cases hH : HasInternal t id s = false
      · rw [if_pos hH]; exact hw
      · rw [if_neg hH]
        exact wf_setEnt s id _ hw rfl rfl

theorem validateID_none (s : ECS n) (i : Nat) : ValidateID s i = none ↔ i < s.endSlot := by
  unfold ValidateID
  by_cases h : s.endSlot ≤ i
  · rw [if_pos h]
    constructor
    · intro hc; cases hc
    · intro hc; omega
  · rw [if_neg h]
    constructor
    · intro _; omega
    · intro _; rfl

theorem validateEntityID_none (i : Nat) : ValidateEntityID i = none ↔ i ≠ SIZE_MAX := by
  unfold ValidateEntityID
  by_cases h : i = SIZE_MAX
  · rw [if_pos h]
    constructor
    · intro hc; cases hc
    · intro hc; exact absurd h hc
  · rw [if_neg h]
    constructor
    · intro _; exact h
    · intro _; rfl

theorem wf_remove_core (s : ECS n) (i es : Nat) (hw : WF s)
    (hlen : i < s.entities.length) (hacts : (entAt s i).active = true)
    (hactj : ∀ j, j < s.entities.length → (entAt s j).active = true → j ≠ i → j < es)
    (hes : es ≤ s.entities.length) :
    WF { endSlot := es, nrEntities := s.nrEntities - 1,
         entities := s.entities.set i { entAt s i with active := false },
         componentArrays := s.componentArrays, componentRanges := s.componentRanges } := by
  have hSelf : entAt (setEnt s i { entAt s i with active := false }) i
      = { entAt s i with active := false } := entAt_setEnt_self s i _ hlen
  have hNe : ∀ j, j ≠ i →
      entAt (setEnt s i { entAt s i with active := false }) j = entAt s j :=
    fun j hj => entAt_setEnt_ne s i j _ (fun h => hj h.symm)
  constructor
  · show es ≤ (s.entities.set i _).length
    simpa using hes
  · intro t
    show (s.componentArrays t).length = (s.entities.set i _).length
    simpa using hw.cols_len t
  · intro j hj hact
    have hj' : j < s.entities.length := by simpa using hj
    show j < es
    by_cases hji : j = i
    · rw [hji] at hact
      have hact' : (entAt (setEnt s i { entAt s i with active := false }) i).active = true :=
        hact
      rw [hSelf] at hact'
      simp at hact'
    · have hact' : (entAt (setEnt s i { entAt s i with active := false }) j).active = true :=
        hact
      rw [hNe j hji] at hact'
      exact hactj j hj' hact' hji
  · show s.nrEntities - 1 =
      (s.entities.set i { entAt s i with active := false }).countP (fun e => e.active)
    have hold : (fun e : Entity n => e.active) (s.entities.get ⟨i, hlen⟩) = true := by
      rw [← entAt_eq_get s i hlen]
      exact hacts
    have hc := countP_set_deactivate (fun e : Entity n => e.active) s.entities i
      { entAt s i with active := false } hlen hold rfl
    rw [hw.count_eq]
    omega
  · intro j hj
    have hj' : j < s.entities.length := by simpa using hj
    by_cases hji : j = i
    · rw [hji]
      show (entAt (setEnt s i { entAt s i with active := false }) i).id = i
      rw [hSelf]
      show (entAt s i).id = i
      exact hw.id_eq i hlen
    · show (entAt (setEnt s i { entAt s i with active := false }) j).id = j
      rw [hNe j hji]
      exact hw.id_eq j hj'

theorem wf_RemoveEntity (id : Nat) (s : ECS n) (hw : WF s) : WF (RemoveEntity id s).1 := by
  unfold RemoveEntity
  cases hVE : ValidateEntityID id with
  | some e => exact hw
  | none =>
    cases hVI : ValidateID s id with
    | some e => exact hw
    | none =>
      by_cases hact : (entAt s id).active = false
      · rw [if_pos hact]; exact hw
      · rw [if_neg hact]
        have hlt : id < s.endSlot := (validateID_none s id).1 hVI
        have hlen : id < s.entities.length := lt_of_lt_of_le hlt hw.endSlot_le
        have hacts : (entAt s id).active = true := by
          cases hB : (entAt s id).active with
          | false => exact absurd hB hact
          | true => rfl
        have hid : (entAt s id).id = id := hw.id_eq id hlen
        have h0 : ¬ ((deactivate id s).endSlot = 0) := by
          show ¬ (s.endSlot = 0)
          omega
        have hgl : GetLastSlot (deactivate id s) = s.endSlot - 1 := by
          unfold GetLastSlot
          rw [if_neg h0]
          rfl
        by_cases htail : s.endSlot - 1 = id
        · have h1 : shrinkTail (deactivate id s) (entAt s id).id
              = { deactivate id s with endSlot := (deactivate id s).endSlot - 1 } := by
            unfold shrinkTail
            rw [hgl, hid, if_pos htail]
          rw [h1]
          exact wf_remove_core s id (s.endSlot - 1) hw hlen hacts
            (fun j hjl hja hji => by
              have := hw.active_lt j hjl hja
              omega)
            (by omega)
        · have h1 : shrinkTail (deactivate id s) (entAt s id).id = deactivate id s := by
            unfold shrinkTail
            rw [hgl, hid, if_neg htail]
          rw [h1]
          exact wf_remove_core s id s.endSlot hw hlen hacts
            (fun j hjl hja _ => hw.active_lt j hjl hja) hw.endSlot_le

theorem getD_append_lt (l l₂ : List α) (d : α) (j : Nat) (h : j < l.length) :
    (l ++ l₂).getD j d = l.getD j d := by
  simp [List.getElem?_append_left h]

theorem getD_append_self (l : List α) (a d : α) :
    (l ++ [a]).getD l.length d = a := by
  simp [List.getElem?_concat_length]

theorem allocState_eq_append (s : ECS n) (hA : scanFirstEmpty s = s.endSlot)
    (hL : scanFirstEmpty s = s.entities.length) :
    allocState s = { s with endSlot := s.endSlot + 1,
                            entities := s.entities ++
                              [{ activeComponents := fun _ => false, active := false,
                                 id := scanFirstEmpty s }],
                            componentArrays := fun t => s.componentArrays t ++ [0] } := by
  unfold allocState growVectors afterAlloc
  rw [if_pos hA]
  rw [if_pos (show scanFirstEmpty s
      = ({ s with endSlot := s.endSlot + 1 } : ECS n).entities.length from hL)]

theorem allocState_eq_bump (s : ECS n) (hA : scanFirstEmpty s = s.endSlot)
    (hL : scanFirstEmpty s ≠ s.entities.length) :
    allocState s = { s with endSlot := s.endSlot + 1 } := by
  unfold allocState growVectors afterAlloc
  rw [if_pos hA]
  rw [if_neg (show ¬ scanFirstEmpty s
      = ({ s with endSlot := s.endSlot + 1 } : ECS n).entities.length from hL)]

theorem allocState_eq_same (s : ECS n) (hw : WF s) (hA : scanFirstEmpty s ≠ s.endSlot) :
    allocState s = s := by
  have hlt : scanFirstEmpty s < s.endSlot :=
    Nat.lt_of_le_of_ne (scanFirstEmpty_le s) hA
  have hL : ¬ (scanFirstEmpty s = s.entities.length) := by
    have := hw.endSlot_le
    omega
  unfold allocState growVectors afterAlloc
  rw [if_neg hA]
  rw [if_neg hL]

theorem entAt_of_entities (s : ECS n) (l : List (Entity n))
    (h : s.entities = l) (j : Nat) : entAt s j = l.getD j (defaultEntity n) := by
  unfold entAt
  rw [h]

theorem allocState_spec (s : ECS n) (hw : WF s) :
    WF (allocState s) ∧
    (allocState s).nrEntities = s.nrEntities ∧
    scanFirstEmpty s < (allocState s).endSlot ∧
    s.endSlot ≤ (allocState s).endSlot ∧
    (allocState s).endSlot ≤ s.endSlot + 1 ∧
    scanFirstEmpty s < (allocState s).entities.length ∧
    (entAt (allocState s) (scanFirstEmpty s)).active = false ∧
    (entAt (allocState s) (scanFirstEmpty s)).id = scanFirstEmpty s := by
  have hsc := scanFirstEmpty_le s
  have hel := hw.endSlot_le
  by_cases hA : scanFirstEmpty s = s.endSlot
  · by_cases hL : scanFirstEmpty s = s.entities.length
    · have hEQ := allocState_eq_append s hA hL
      have hENT : (allocState s).entities =
          s.entities ++ [⟨fun _ => false, false, scanFirstEmpty s⟩] := by rw [hEQ]
      have hEND : (allocState s).endSlot = s.endSlot + 1 := by rw [hEQ]
      have hNR : (allocState s).nrEntities = s.nrEntities := by rw [hEQ]
      have hCOL : ∀ t, (allocState s).componentArrays t = s.componentArrays t ++ [0] := by
        intro t; rw [hEQ]
      have hLEN : (allocState s).entities.length = s.entities.length + 1 := by
        rw [hENT]; simp
      have hOLD : ∀ j, j < s.entities.length → entAt (allocState s) j = entAt s j := by
        intro j hj
        rw [entAt_of_entities _ _ hENT j, getD_append_lt s.entities _ _ j hj]
        rfl
      have hFRESH : entAt (allocState s) (scanFirstEmpty s) =
          ⟨fun _ => false, false, scanFirstEmpty s⟩ := by
        rw [entAt_of_entities _ _ hENT, hL]
        exact getD_append_self s.entities _ _
      refine ⟨?_, hNR, by omega, by omega, by omega, by omega,
        by rw [hFRESH], by rw [hFRESH]⟩
      constructor
      · omega
      · intro t
        rw [hCOL t, hLEN]
        simp [hw.cols_len t]
      · intro j hj hact
        rw [hLEN] at hj
        rw [hEND]
        by_cases hje : j = s.entities.length
        · omega
        · have hjlt : j < s.entities.length := by omega
          rw [hOLD j hjlt] at hact
          have := hw.active_lt j hjlt hact
          omega
      · rw [hNR, hENT, List.countP_append, hw.count_eq]
        simp
      · intro j hj
        rw [hLEN] at hj
        by_cases hje : j = s.entities.length
        · rw [hje, entAt_of_entities _ _ hENT, getD_append_self s.entities _ _]
          show scanFirstEmpty s = s.entities.length
          exact hL
        · have hjlt : j < s.entities.length := by omega
          rw [hOLD j hjlt]
          exact hw.id_eq j hjlt
    · have hEQ := allocState_eq_bump s hA hL
      have hlt : scanFirstEmpty s < s.entities.length := by omega
      have hENT : (allocState s).entities = s.entities := by rw [hEQ]
      have hEND : (allocState s).endSlot = s.endSlot + 1 := by rw [hEQ]
      have hNR : (allocState s).nrEntities = s.nrEntities := by rw [hEQ]
      have hCOL : ∀ t, (allocState s).componentArrays t = s.componentArrays t := by
        intro t; rw [hEQ]
      have hOLD : ∀ j, entAt (allocState s) j = entAt s j := by
        intro j
        rw [entAt_of_entities _ _ hENT j]
        rfl
      have hLEN : (allocState s).entities.length = s.entities.length := by rw [hENT]
      have hinact : (entAt s (scanFirstEmpty s)).active = false := by
        cases hB : (entAt s (scanFirstEmpty s)).active with
        | false => rfl
        | true =>
          have := hw.active_lt (scanFirstEmpty s) hlt hB
          omega
      refine ⟨?_, hNR, by omega, by omega, by omega, by omega,
        by rw [hOLD, hinact], by rw [hOLD]; exact hw.id_eq _ hlt⟩
      constructor
      · omega
      · intro t
        rw [hCOL t, hLEN]
        exact hw.cols_len t
      · intro j hj hact
        rw [hLEN] at hj
        rw [hEND]
        rw [hOLD j] at hact
        have := hw.active_lt j hj hact
        omega
      · rw [hNR, hENT, hw.count_eq]
      · intro j hj
        rw [hLEN] at hj
        rw [hOLD j]
        exact hw.id_eq j hj
  · have hEQ := allocState_eq_same s hw hA
    have hlt : scanFirstEmpty s < s.endSlot :=
      Nat.lt_of_le_of_ne (scanFirstEmpty_le s) hA
    have hlt2 : scanFirstEmpty s < s.entities.length := by omega
    rw [hEQ]
    exact ⟨hw, rfl, hlt, Nat.le_refl _, by omega, hlt2,
      scanFirstEmpty_not_active s hlt, hw.id_eq _ hlt2⟩

theorem wf_activate (s' : ECS n) (slot : Nat) (hw : WF s') (hlt : slot < s'.endSlot)
    (hlen : slot < s'.entities.length) (hinact : (entAt s' slot).active = false) :
    WF (activateSlot s' slot) := by
  have hSelf : entAt (setEnt s' slot
        { entAt s' slot with active := true, activeComponents := fun _ => false }) slot
      = { entAt s' slot with active := true, activeComponents := fun _ => false } :=
    entAt_setEnt_self s' slot _ hlen
  have hNe : ∀ j, j ≠ slot → entAt (setEnt s' slot
        { entAt s' slot with active := true, activeComponents := fun _ => false }) j
      = entAt s' j :=
    fun j hj => entAt_setEnt_ne s' slot j _ (fun h => hj h.symm)
  constructor
  · show s'.endSlot ≤ (s'.entities.set slot _).length
    simpa using hw.endSlot_le
  · intro t
    show (s'.componentArrays t).length = (s'.entities.set slot _).length
    simpa using hw.cols_len t
  · intro j hj hact
    show j < s'.endSlot
    have hj' : j < s'.entities.length := by simpa [activateSlot, setEnt] using hj
    by_cases hji : j = slot
    · rw [hji]; exact hlt
    · have hact' : (entAt (setEnt s' slot
            { entAt s' slot with active := true, activeComponents := fun _ => false }) j).active
          = true := hact
      rw [hNe j hji] at hact'
      exact hw.active_lt j hj' hact'
  · show s'.nrEntities + 1 = (s'.entities.set slot _).countP (fun e => e.active)
    have hold : (fun e : Entity n => e.active) (s'.entities.get ⟨slot, hlen⟩) = false := by
      rw [← entAt_eq_get s' slot hlen]
      exact hinact
    have hc := countP_set_activate (fun e : Entity n => e.active) s'.entities slot
      { entAt s' slot with active := true, activeComponents := fun _ => false } hlen hold rfl
    rw [hw.count_eq]
    omega
  · intro j hj
    have hj' : j < s'.entities.length := by simpa [activateSlot, setEnt] using hj
    by_cases hji : j = slot
    · rw [hji]
      show (entAt (setEnt s' slot
          { entAt s' slot with active := true, activeComponents := fun _ => false }) slot).id
        = slot
      rw [hSelf]
      show (entAt s' slot).id = slot
      exact hw.id_eq slot hlen
    · show (entAt (setEnt s' slot
          { entAt s' slot with active := true, activeComponents := fun _ => false }) j).id = j
      rw [hNe j hji]
      exact hw.id_eq j hj'

theorem wf_AddEntity (eid : Option (Fin n)) (s : ECS n) (hw : WF s) :
    WF (AddEntity eid s).1.1 := by
  obtain ⟨hwA, hnr, hlt, _, _, hlenA, hinact, hidA⟩ := allocState_spec s hw
  unfold AddEntity
  cases hV : ValidateID (allocState s) (scanFirstEmpty s) with
  | some e => exact hwA
  | none =>
    cases eid with
    | some t =>
      exact wf_Add t _ _ _ (wf_activate (allocState s) (scanFirstEmpty s) hwA hlt hlenA hinact)
    | none => exact wf_activate (allocState s) (scanFirstEmpty s) hwA hlt hlenA hinact

theorem wf_addAll (id : Nat) (comps : List (Fin n × Nat)) (s : ECS n) (hw : WF s) :
    WF (addAll id comps s).1 := by
  induction comps generalizing s with
  | nil => exact hw
  | cons c rest ih =>
    unfold addAll
    rcases c with ⟨t, v⟩
    cases hA : Add t id v s with
    | mk s' err =>
      have hw' : WF s' := by
        have := wf_Add t id v s hw
        rw [hA] at this
        exact this
      cases err with
      | some e => exact hw'
      | none => exact ih s' hw'

theorem wf_BuildEntity (comps : List (Fin n × Nat)) (eid : Option (Fin n)) (s : ECS n)
    (hw : WF s) : WF (BuildEntity comps eid s).1.1 := by
  unfold BuildEntity
  cases hA : AddEntity eid s with
  | mk p err =>
    cases p with
    | mk s1 id =>
      have hw1 : WF s1 := by
        have := wf_AddEntity eid s hw
        rw [hA] at this
        exact this
      cases err with
      | some e => exact hw1
      | none => exact wf_addAll id comps s1 hw1

theorem wf_reachable {n : Nat} {eid : Option (Fin n)} {s : ECS n}
    (h : Reachable n eid s) : WF s := by
  induction h with
  | init => exact wf_init
  | addEntity _ ih => exact wf_AddEntity _ _ ih
  | add t id v _ ih => exact wf_Add t id v _ ih
  | buildEntity comps _ ih => exact wf_BuildEntity comps _ _ ih
  | removeEntity id _ ih => exact wf_RemoveEntity id _ ih
  | remove t id _ ih => exact wf_Remove t id _ ih

/-! ## Behaviour of the single operations on the success and error paths -/

theorem UCR_state (t : Fin n) (idv : Nat) (X : ECS n) :
    (UpdateComponentRange t idv X).1.entities = X.entities ∧
    (UpdateComponentRange t idv X).1.endSlot = X.endSlot ∧
    (UpdateComponentRange t idv X).1.nrEntities = X.nrEntities ∧
    (UpdateComponentRange t idv X).1.componentArrays = X.componentArrays := by
  unfold UpdateComponentRange
  split
  · exact ⟨rfl, rfl, rfl, rfl⟩
  · exact ⟨rfl, rfl, rfl, rfl⟩

theorem UCR_err_none (t : Fin n) (idv : Nat) (X : ECS n) (h : HasInternal t idv X = true) :
    (UpdateComponentRange t idv X).2 = none := by
  unfold UpdateComponentRange
  rw [if_neg (by simp [h])]

theorem Has_ok (ts : List (Fin n)) (id : Nat) (s : ECS n) (hid : id ≠ SIZE_MAX) :
    Has ts id s = .ok (ts.all fun t => HasInternal t id s) := by
  unfold Has
  rw [(validateEntityID_none id).2 hid]

theorem Get_ok (t : Fin n) (id : Nat) (s : ECS n) (hid : id ≠ SIZE_MAX)
    (hflag : HasInternal t id s = true) (hlt : id < s.endSlot) :
    Get t id s = .ok ((s.componentArrays t).getD id 0) := by
  unfold Get
  rw [(validateEntityID_none id).2 hid, if_neg (by simp [hflag]),
    (validateID_none s id).2 hlt]

theorem Add_already_present (t : Fin n) (id v : Nat) (s : ECS n)
    (hid : id ≠ SIZE_MAX) (hlt : id < s.endSlot) (hflag : HasInternal t id s = true) :
    Add t id v s = (s, some (.logicError "Component already added!")) := by
  unfold Add
  rw [(validateEntityID_none id).2 hid, (validateID_none s id).2 hlt, if_pos hflag]

theorem Remove_not_present (t : Fin n) (id : Nat) (s : ECS n)
    (hid : id ≠ SIZE_MAX) (hlt : id < s.endSlot) (hflag : HasInternal t id s = false) :
    Remove t id s = (s, some (.logicError "Component not active!")) := by
  unfold Remove
  rw [(validateEntityID_none id).2 hid, (validateID_none s id).2 hlt, if_pos hflag]

theorem Add_split (t : Fin n) (id v : Nat) (s : ECS n)
    (hid : id ≠ SIZE_MAX) (hlt : id < s.endSlot) (hflag : HasInternal t id s = false) :
    Add t id v s = UpdateComponentRange t id (setColumnVal (flagOn t id s) t id v) := by
  unfold Add
  rw [(validateEntityID_none id).2 hid, (validateID_none s id).2 hlt,
    if_neg (by simp [hflag]), (validateID_none (flagOn t id s) id).2 hlt]

theorem entAt_flagOn_self (t : Fin n) (id : Nat) (s : ECS n) (hlen : id < s.entities.length) :
    entAt (flagOn t id s) id = setFlag (entAt s id) t true :=
  entAt_setEnt_self s id _ hlen

theorem entAt_flagOn_ne (t : Fin n) (id j : Nat) (s : ECS n) (hne : j ≠ id) :
    entAt (flagOn t id s) j = entAt s j :=
  entAt_setEnt_ne s id j _ (fun h => hne h.symm)

theorem Add_success_spec (t : Fin n) (id v : Nat) (s : ECS n)
    (hid : id ≠ SIZE_MAX) (hlt : id < s.endSlot) (hlen : id < s.entities.length)
    (hflag : HasInternal t id s = false) :
    (Add t id v s).2 = none ∧
    (Add t id v s).1.endSlot = s.endSlot ∧
    (Add t id v s).1.nrEntities = s.nrEntities ∧
    (Add t id v s).1.entities.length = s.entities.length ∧
    (∀ t', ((Add t id v s).1.componentArrays t').length = (s.componentArrays t').length) ∧
    HasInternal t id (Add t id v s).1 = true ∧
    (∀ j t', ¬ (j = id ∧ t' = t) →
      HasInternal t' j (Add t id v s).1 = HasInternal t' j s) ∧
    (∀ j, (entAt (Add t id v s).1 j).active = (entAt s j).active) ∧
    (∀ j, (entAt (Add t id v s).1 j).id = (entAt s j).id) ∧
    (id < (s.componentArrays t).length →
      ((Add t id v s).1.componentArrays t).getD id 0 = v) ∧
    (∀ t' j, ¬ (t' = t ∧ j = id) →
      ((Add t id v s).1.componentArrays t').getD j 0 = (s.componentArrays t').getD j 0) := by
  have hsp := Add_split t id v s hid hlt hflag
  obtain ⟨hE, hES, hNR, hCA⟩ := UCR_state t id (setColumnVal (flagOn t id s) t id v)
  have hHIX : HasInternal t id (setColumnVal (flagOn t id s) t id v) = true := by
    show (entAt (flagOn t id s) id).activeComponents t = true
    rw [entAt_flagOn_self t id s hlen]
    unfold setFlag
    simp
  have hEnt : (Add t id v s).1.entities = s.entities.set id (setFlag (entAt s id) t true) := by
    rw [hsp]
    exact hE
  have hCols : (Add t id v s).1.componentArrays =
      fun t' => if t' = t then (s.componentArrays t').set id v else s.componentArrays t' := by
    rw [hsp]
    exact hCA
  have hEA : ∀ j, entAt (Add t id v s).1 j = entAt (flagOn t id s) j := by
    intro j
    unfold entAt
    rw [hEnt]
    rfl
  refine ⟨?_, ?_, ?_, ?_, ?_, ?_, ?_, ?_, ?_, ?_, ?_⟩
  · rw [hsp]
    exact UCR_err_none t id _ hHIX
  · rw [hsp]
    exact hES
  · rw [hsp]
    exact hNR
  · rw [hEnt]
    simp
  · intro t'
    rw [hCols]
    by_cases h : t' = t
    · simp [h]
    · simp [h]
  · show (entAt (Add t id v s).1 id).activeComponents t = true
    rw [hEA id, entAt_flagOn_self t id s hlen]
    unfold setFlag
    simp
  · intro j t' hnot
    show (entAt (Add t id v s).1 j).activeComponents t' = (entAt s j).activeComponents t'
    rw [hEA j]
    by_cases hji : j = id
    · have ht' : ¬ (t' = t) := fun h => hnot ⟨hji, h⟩
      rw [hji, entAt_flagOn_self t id s hlen]
      unfold setFlag
      simp [ht']
    · rw [entAt_flagOn_ne t id j s hji]
  · intro j
    rw [hEA j]
    by_cases hji : j = id
    · rw [hji, entAt_flagOn_self t id s hlen]
      rfl
    · rw [entAt_flagOn_ne t id j s hji]
  · intro j
    rw [hEA j]
    by_cases hji : j = id
    · rw [hji, entAt_flagOn_self t id s hlen]
      rfl
    · rw [entAt_flagOn_ne t id j s hji]
  · intro hc
    rw [hCols]
    simp [List.getElem?_set_self hc]
  · intro t' j hnot
    rw [hCols]
    by_cases h : t' = t
    · have hji : ¬ (j = id) := fun hj => hnot ⟨h, hj⟩
      simp [h, List.getElem?_set_ne (fun he => hji he.symm)]
    · simp [h]

theorem Remove_success_spec (t : Fin n) (id : Nat) (s : ECS n)
    (hid : id ≠ SIZE_MAX) (hlt : id < s.endSlot) (hlen : id < s.entities.length)
    (hflag : HasInternal t id s = true) :
    (Remove t id s).2 = none ∧
    (Remove t id s).1.endSlot = s.endSlot ∧
    (Remove t id s).1.nrEntities = s.nrEntities ∧
    (Remove t id s).1.entities.length = s.entities.length ∧
    (Remove t id s).1.componentArrays = s.componentArrays ∧
    (Remove t id s).1.componentRanges = s.componentRanges ∧
    HasInternal t id (Remove t id s).1 = false ∧
    (∀ j t', ¬ (j = id ∧ t' = t) →
      HasInternal t' j (Remove t id s).1 = HasInternal t' j s) ∧
    (∀ j, (entAt (Remove t id s).1 j).active = (entAt s j).active) ∧
    (∀ j, (entAt (Remove t id s).1 j).id = (entAt s j).id) := by
  have hsp : Remove t id s = (setEnt s id (setFlag (entAt s id) t false), none) := by
    unfold Remove
    rw [(validateEntityID_none id).2 hid, (validateID_none s id).2 hlt,
      if_neg (by simp [hflag])]
  have hSelf : entAt (setEnt s id (setFlag (entAt s id) t false)) id
      = setFlag (entAt s id) t false := entAt_setEnt_self s id _ hlen
  have hNe : ∀ j, j ≠ id → entAt (setEnt s id (setFlag (entAt s id) t false)) j = entAt s j :=
    fun j hj => entAt_setEnt_ne s id j _ (fun h => hj h.symm)
  rw [hsp]
  refine ⟨rfl, rfl, rfl, by simp [setEnt], rfl, rfl, ?_, ?_, ?_, ?_⟩
  · show (entAt (setEnt s id (setFlag (entAt s id) t false)) id).activeComponents t = false
    rw [hSelf]
    unfold setFlag
    simp
  · intro j t' hnot
    show (entAt (setEnt s id (setFlag (entAt s id) t false)) j).activeComponents t'
      = (entAt s j).activeComponents t'
    by_cases hji : j = id
    · have ht' : ¬ (t' = t) := fun h => hnot ⟨hji, h⟩
      rw [hji, hSelf]
      unfold setFlag
      simp [ht']
    · rw [hNe j hji]
  · intro j
    by_cases hji : j = id
    · rw [hji, hSelf]
      rfl
    · rw [hNe j hji]
  · intro j
    by_cases hji : j = id
    · rw [hji, hSelf]
      rfl
    · rw [hNe j hji]

theorem Add_endSlot (t : Fin n) (id v : Nat) (s : ECS n) :
    (Add t id v s).1.endSlot = s.endSlot := by
  unfold Add
  cases hVE : ValidateEntityID id with
  | some e => rfl
  | none =>
    cases hVI : ValidateID s id with
    | some e => rfl
    | none =>
      by_cases hH : HasInternal t id s = true
      · rw [if_pos hH]
      · rw [if_neg hH]
        cases hVI2 : ValidateID (flagOn t id s) id with
        | some e => rfl
        | none => exact (UCR_state t id (setColumnVal (flagOn t id s) t id v)).2.1

theorem AddEntity_ret (eid : Option (Fin n)) (s : ECS n) (hw : WF s) :
    (AddEntity eid s).1.2 = scanFirstEmpty s := by
  obtain ⟨hwA, hnr, hlt, hge, hle, hlenA, hinact, hidA⟩ := allocState_spec s hw
  unfold AddEntity
  cases hV : ValidateID (allocState s) (scanFirstEmpty s) with
  | some e => rfl
  | none =>
    cases eid with
    | some t => exact hidA
    | none => exact hidA

theorem AddEntity_endSlot (eid : Option (Fin n)) (s : ECS n) :
    (AddEntity eid s).1.1.endSlot = (allocState s).endSlot := by
  unfold AddEntity
  cases hV : ValidateID (allocState s) (scanFirstEmpty s) with
  | some e => rfl
  | none =>
    cases eid with
    | some t =>
      exact Add_endSlot t (newId s) (newId s)
        (activateSlot (allocState s) (scanFirstEmpty s))
    | none => rfl

theorem AddEntity_err_none (eid : Option (Fin n)) (s : ECS n) (hw : WF s)
    (hsz : s.entities.length < SIZE_MAX) :
    (AddEntity eid s).2 = none := by
  obtain ⟨hwA, hnr, hlt, hge, hle, hlenA, hinact, hidA⟩ := allocState_spec s hw
  have hkSZ : scanFirstEmpty s ≠ SIZE_MAX := by
    have h1 := scanFirstEmpty_le s
    have h2 := hw.endSlot_le
    omega
  have hNid : newId s = scanFirstEmpty s := hidA
  have hActSelf : entAt (activateSlot (allocState s) (scanFirstEmpty s)) (scanFirstEmpty s)
      = { entAt (allocState s) (scanFirstEmpty s) with
          active := true, activeComponents := fun _ => false } :=
    entAt_setEnt_self (allocState s) (scanFirstEmpty s) _ hlenA
  have hlenAct : scanFirstEmpty s
      < (activateSlot (allocState s) (scanFirstEmpty s)).entities.length := by
    show scanFirstEmpty s < ((allocState s).entities.set (scanFirstEmpty s) _).length
    simpa using hlenA
  unfold AddEntity
  cases hV2 : ValidateID (allocState s) (scanFirstEmpty s) with
  | some e =>
    rw [(validateID_none (allocState s) (scanFirstEmpty s)).2 hlt] at hV2
    cases hV2
  | none =>
    cases eid with
    | some t =>
      rw [hNid]
      have hflagAct : HasInternal t (scanFirstEmpty s)
          (activateSlot (allocState s) (scanFirstEmpty s)) = false := by
        show (entAt (activateSlot (allocState s) (scanFirstEmpty s)) (scanFirstEmpty s)
          ).activeComponents t = false
        rw [hActSelf]
      exact (Add_success_spec t (scanFirstEmpty s) (scanFirstEmpty s)
        (activateSlot (allocState s) (scanFirstEmpty s)) hkSZ hlt hlenAct hflagAct).1
    | none => rfl

theorem RemoveEntity_success_spec (id : Nat) (s : ECS n) (hw : WF s) (hid : id ≠ SIZE_MAX)
    (hlt : id < s.endSlot) (hact : (entAt s id).active = true) :
    (RemoveEntity id s).2 = none ∧
    (RemoveEntity id s).1.endSlot =
      (if s.endSlot - 1 = id then s.endSlot - 1 else s.endSlot) ∧
    (RemoveEntity id s).1.nrEntities = s.nrEntities - 1 ∧
    (entAt (RemoveEntity id s).1 id).active = false ∧
    (∀ j, j ≠ id → entAt (RemoveEntity id s).1 j = entAt s j) ∧
    (RemoveEntity id s).1.componentArrays = s.componentArrays ∧
    (RemoveEntity id s).1.componentRanges = s.componentRanges ∧
    (RemoveEntity id s).1.entities.length = s.entities.length := by
  have hlen : id < s.entities.length := lt_of_lt_of_le hlt hw.endSlot_le
  have hids : (entAt s id).id = id := hw.id_eq id hlen
  have h0 : ¬ ((deactivate id s).endSlot = 0) := by
    show ¬ (s.endSlot = 0)
    omega
  have hgl : GetLastSlot (deactivate id s) = s.endSlot - 1 := by
    unfold GetLastSlot
    rw [if_neg h0]
    rfl
  have hSelf : entAt (deactivate id s) id = { entAt s id with active := false } :=
    entAt_setEnt_self s id _ hlen
  have hNe : ∀ j, j ≠ id → entAt (deactivate id s) j = entAt s j :=
    fun j hj => entAt_setEnt_ne s id j _ (fun h => hj h.symm)
  have hsp : RemoveEntity id s =
      ({ shrinkTail (deactivate id s) (entAt s id).id with
           nrEntities := (shrinkTail (deactivate id s) (entAt s id).id).nrEntities - 1 },
       none) := by
    unfold RemoveEntity
    rw [(validateEntityID_none id).2 hid, (validateID_none s id).2 hlt,
      if_neg (by simp [hact])]
  rw [hsp]
  by_cases htail : s.endSlot - 1 = id
  · have h1 : shrinkTail (deactivate id s) (entAt s id).id
        = { deactivate id s with endSlot := (deactivate id s).endSlot - 1 } := by
      unfold shrinkTail
      rw [hgl, hids, if_pos htail]
    rw [h1]
    refine ⟨rfl, ?_, rfl, ?_, ?_, rfl, rfl, by simp [deactivate, setEnt]⟩
    · show s.endSlot - 1 = if s.endSlot - 1 = id then s.endSlot - 1 else s.endSlot
      rw [if_pos htail]
    · show (entAt (deactivate id s) id).active = false
      rw [hSelf]
    · intro j hj
      show entAt (deactivate id s) j = entAt s j
      exact hNe j hj
  · have h1 : shrinkTail (deactivate id s) (entAt s id).id = deactivate id s := by
      unfold shrinkTail
      rw [hgl, hids, if_neg htail]
    rw [h1]
    refine ⟨rfl, ?_, rfl, ?_, ?_, rfl, rfl, by simp [deactivate, setEnt]⟩
    · show s.endSlot = if s.endSlot - 1 = id then s.endSlot - 1 else s.endSlot
      rw [if_neg htail]
    · show (entAt (deactivate id s) id).active = false
      rw [hSelf]
    · intro j hj
      show entAt (deactivate id s) j = entAt s j
      exact hNe j hj

/-! ## Claim theorems -/

/-- C1: the claimed exact partition coverage of `GetSystemPart` fails on the
code, and the code contradicts its own documented purpose (splitting
iteration for multi-threading): `ecsBegin`/`ecsEnd` *add* the range-pruning
offsets to the partition offsets instead of intersecting the ranges.  In the
state with four entities where the component sits on slots 1, 2 and 3 (added
in that order, range tracker `[1,3]`), splitting into `totalParts = 2` makes
part 0 visit exactly slot 1 and part 1 exactly slot 3, while slot 2 is
active, within the frontier and matches the filter - so the union of all
parts misses it. -/
theorem C1_partition_misses_matching_slot :
    HasGivenComponents [comp0] c1State 2 = true ∧
    2 < c1State.endSlot ∧
    systemVisits [comp0] 0 2 c1State = [1] ∧
    systemVisits [comp0] 1 2 c1State = [3] := by
  decide

/-- C2: the claimed range-tracker invariant `firstSlot ≤ lastSlot` is
violated by the code (the code's own `ValidateInvariant` assertion throws on
it, so the invariant is clearly intended): after `Add` on slot 1 followed by
a successful `Add` on slot 0, the tracker entry becomes
`firstSlot = 1 > lastSlot = 0`, and constructing any `System` over that
component throws "Invariant broken!". -/
theorem C2_range_invariant_violated :
    (Add comp0 0 7 (Add comp0 1 5 twoEnts).1).2 = none ∧
    (c2State.componentRanges comp0).componentPresent = true ∧
    (c2State.componentRanges comp0).firstSlot = 1 ∧
    (c2State.componentRanges comp0).lastSlot = 0 ∧
    ValidateInvariant (GetSystemFilterMatch [comp0] c2State)
      = some (.logicError "Invariant broken! FirstSlot > LastSlot") := by
  decide

/-- C3: the claimed min/max expansion of `UpdateComponentRange` on a later
addition fails on the code: after the first `Add` at slot 1 the entry is
`⟨present, 1, 1⟩` as claimed, but a successful second `Add` at slot 0 leaves
`firstSlot = 1 ≠ min 1 0` and overwrites `lastSlot` to `0 ≠ max 1 0`, so the
resulting interval `[1, 0]` does not include the newly added slot 0. -/
theorem C3_updateComponentRange_not_expanding :
    ((Add comp0 1 5 twoEnts).1.componentRanges comp0) = ⟨true, 1, 1⟩ ∧
    (Add comp0 0 7 (Add comp0 1 5 twoEnts).1).2 = none ∧
    (c2State.componentRanges comp0).firstSlot ≠ min 1 0 ∧
    (c2State.componentRanges comp0).lastSlot ≠ max 1 0 ∧
    ¬ ((c2State.componentRanges comp0).firstSlot ≤ 0) := by
  decide

/-- C4 counterexample: `BuildEntity` is not atomic.  Building an entity with
the same component type twice fails with "Component already added!" midway,
yet the entity stays created (`nrEntities` and `endSlot` grew from 0 to 1)
and the first component stays added. -/
theorem C4_buildEntity_partial_failure :
    (BuildEntity [(comp0, 5), (comp0, 7)] none (ECS.init 1)).2 =
      some (.logicError "Component already added!") ∧
    (ECS.init 1).nrEntities = 0 ∧
    (ECS.init 1).endSlot = 0 ∧
    (BuildEntity [(comp0, 5), (comp0, 7)] none (ECS.init 1)).1.1.nrEntities = 1 ∧
    (BuildEntity [(comp0, 5), (comp0, 7)] none (ECS.init 1)).1.1.endSlot = 1 ∧
    HasInternal comp0 0 (BuildEntity [(comp0, 5), (comp0, 7)] none (ECS.init 1)).1.1
      = true := by
  decide

/-- C5 counterexample: `Has` performs no out-of-range check.  After a tail
removal shrinks the frontier to 1 while the vector still has 2 records, the
handle id 1 satisfies `id ≥ endSlot`, yet `Has<T>(1)` returns `ok true`
(the stale presence flag) instead of failing with an out-of-range error. -/
theorem C5_has_out_of_frontier_no_error :
    c5State.endSlot ≤ 1 ∧
    1 < c5State.entities.length ∧
    Has [comp0] 1 c5State = .ok true := by
  decide

/-- C6 counterexample: removing the highest-indexed *active* entity does not
always shrink the frontier.  With three entities, removing slot 1 and then
slot 2 leaves `endSlot = 2` with only slot 0 active (slot 1 is an inactive
hole at `endSlot - 1`).  Removing entity 0 - the highest-indexed active
entity - succeeds but leaves `endSlot` unchanged at 2. -/
theorem C6_remove_highest_active_keeps_frontier :
    (entAt c6State 0).active = true ∧
    (∀ i, i < ContainerSize c6State → 0 < i → (entAt c6State i).active = false) ∧
    c6State.endSlot = 2 ∧
    (RemoveEntity 0 c6State).2 = none ∧
    (RemoveEntity 0 c6State).1.endSlot = 2 := by
  decide

/-- C4 amended: `AddEntity`, `Add`, `RemoveEntity` and `Remove` are atomic.
On every well-formed state whose vector has not reached the `SIZE_MAX`
sentinel, `AddEntity` raises no error at all, so it always fully applies;
`Add`, `Remove` and `RemoveEntity` leave the state exactly as it was
whenever they report an error (for `Add` under the frontier-within-vector
invariant).  `BuildEntity` is excluded: it can fail after creating the
entity and adding earlier components, leaving those mutations applied (see
the counterexample). -/
theorem C4_non_build_ops_atomic (eid : Option (Fin n)) (t : Fin n) (id v : Nat) (s : ECS n)
    (hcl : s.endSlot ≤ s.entities.length) :
    (WF s → s.entities.length < SIZE_MAX → (AddEntity eid s).2 = none) ∧
    ((Add t id v s).2 ≠ none → (Add t id v s).1 = s) ∧
    ((Remove t id s).2 ≠ none → (Remove t id s).1 = s) ∧
    ((RemoveEntity id s).2 ≠ none → (RemoveEntity id s).1 = s) := by
  refine ⟨fun hw hsz => AddEntity_err_none eid s hw hsz, ?_, ?_, ?_⟩
  · unfold Add
    cases hVE : ValidateEntityID id with
    | some e => intro _; rfl
    | none =>
      cases hVI : ValidateID s id with
      | some e => intro _; rfl
      | none =>
        by_cases hH : HasInternal t id s = true
        · rw [if_pos hH]
          intro _; rfl
        · rw [if_neg hH]
          cases hVI2 : ValidateID (flagOn t id s) id with
          | some e =>
            have heq : ValidateID (flagOn t id s) id = ValidateID s id := rfl
            rw [heq, hVI] at hVI2
            cases hVI2
          | none =>
            intro hne
            exfalso
            apply hne
            have hlt : id < s.endSlot := (validateID_none s id).1 hVI
            have hlen : id < s.entities.length := lt_of_lt_of_le hlt hcl
            apply UCR_err_none
            show (entAt (flagOn t id s) id).activeComponents t = true
            rw [entAt_flagOn_self t id s hlen]
            unfold setFlag
            simp
  · unfold Remove
    cases hVE : ValidateEntityID id with
    | some e => intro _; rfl
    | none =>
      cases hVI : ValidateID s id with
      | some e => intro _; rfl
      | none =>
        by_cases hH : HasInternal t id s = false
        · rw [if_pos hH]
          intro _; rfl
        · rw [if_neg hH]
          intro hne
          exact absurd rfl hne
  · unfold RemoveEntity
    cases hVE : ValidateEntityID id with
    | some e => intro _; rfl
    | none =>
      cases hVI : ValidateID s id with
      | some e => intro _; rfl
      | none =>
        by_cases hH : (entAt s id).active = false
        · rw [if_pos hH]
          intro _; rfl
        · rw [if_neg hH]
          intro hne
          exact absurd rfl hne

/-- C4 witness: at the empty one-component manager, `AddEntity` succeeds
with no error, while with handle 0 the other three operations fail and each
leaves the state unchanged. -/
theorem C4_non_build_ops_atomic_witness :
    (AddEntity (none : Option (Fin 1)) (ECS.init 1)).2 = none ∧
    ((Add comp0 0 5 (ECS.init 1)).2 ≠ none ∧ (Add comp0 0 5 (ECS.init 1)).1 = ECS.init 1) ∧
    ((Remove comp0 0 (ECS.init 1)).2 ≠ none ∧
      (Remove comp0 0 (ECS.init 1)).1 = ECS.init 1) ∧
    ((RemoveEntity 0 (ECS.init 1)).2 ≠ none ∧
      (RemoveEntity 0 (ECS.init 1)).1 = ECS.init 1) :=
  ⟨(C4_non_build_ops_atomic none comp0 0 5 (ECS.init 1) (by decide)).1
      wf_init (by decide),
   ⟨by decide,
    (C4_non_build_ops_atomic none comp0 0 5 (ECS.init 1) (by decide)).2.1 (by decide)⟩,
   ⟨by decide,
    (C4_non_build_ops_atomic none comp0 0 5 (ECS.init 1) (by decide)).2.2.1 (by decide)⟩,
   ⟨by decide,
    (C4_non_build_ops_atomic none comp0 0 5 (ECS.init 1) (by decide)).2.2.2 (by decide)⟩⟩

/-- C5 amended: `Has` returns the AND of the presence flags stored at the
handle's slot and raises a logic error only for the uninitialized sentinel
handle; it performs no frontier bounds check, so for every other id -
including ids at or beyond `endSlot` - it returns the stored (possibly
stale) flags instead of failing with an out-of-range error. -/
theorem C5_has_is_and_of_flags (ts : List (Fin n)) (id : Nat) (s : ECS n) :
    (id ≠ SIZE_MAX →
      Has ts id s = .ok (ts.all fun t => (entAt s id).activeComponents t)) ∧
    (id = SIZE_MAX → Has ts id s = .error (.logicError "ID not initialized!")) := by
  constructor
  · intro h
    exact Has_ok ts id s h
  · intro h
    unfold Has ValidateEntityID
    rw [if_pos h]

/-- C5 witness: applying the amended theorem at the tail-shrunk state, where
the queried id 1 lies beyond the frontier, yields the stored flags. -/
theorem C5_has_is_and_of_flags_witness :
    Has [comp0] 1 c5State = .ok ([comp0].all fun t => (entAt c5State 1).activeComponents t) :=
  (C5_has_is_and_of_flags [comp0] 1 c5State).1 (by decide)

/-- C8: a successful `Remove<T>` only clears the presence flag of `T` at the
handle's slot: the component columns (including the stored value in column
`T`), the range tracker, `endSlot`, `nrEntities`, the vector length, every
other presence flag, and every record's `active`/`id` fields are unchanged. -/
theorem C8_remove_frame (t : Fin n) (id : Nat) (s : ECS n)
    (hid : id ≠ SIZE_MAX) (hlt : id < s.endSlot) (hlen : id < s.entities.length)
    (hflag : HasInternal t id s = true) :
    (Remove t id s).2 = none ∧
    HasInternal t id (Remove t id s).1 = false ∧
    (Remove t id s).1.componentArrays = s.componentArrays ∧
    (Remove t id s).1.componentRanges = s.componentRanges ∧
    (Remove t id s).1.endSlot = s.endSlot ∧
    (Remove t id s).1.nrEntities = s.nrEntities ∧
    (Remove t id s).1.entities.length = s.entities.length ∧
    (∀ j t', ¬ (j = id ∧ t' = t) →
      HasInternal t' j (Remove t id s).1 = HasInternal t' j s) ∧
    (∀ j, (entAt (Remove t id s).1 j).active = (entAt s j).active) ∧
    (∀ j, (entAt (Remove t id s).1 j).id = (entAt s j).id) := by
  obtain ⟨h1, h2, h3, h4, h5, h6, h7, h8, h9, h10⟩ :=
    Remove_success_spec t id s hid hlt hlen hflag
  exact ⟨h1, h7, h5, h6, h2, h3, h4, h8, h9, h10⟩

/-- C8 witness: removing the component from slot 1 after adding it there. -/
theorem C8_remove_frame_witness :
    (Remove comp0 1 (Add comp0 1 7 twoEnts).1).2 = none ∧
    HasInternal comp0 1 (Remove comp0 1 (Add comp0 1 7 twoEnts).1).1 = false ∧
    (Remove comp0 1 (Add comp0 1 7 twoEnts).1).1.componentArrays
      = (Add comp0 1 7 twoEnts).1.componentArrays ∧
    (Remove comp0 1 (Add comp0 1 7 twoEnts).1).1.componentRanges
      = (Add comp0 1 7 twoEnts).1.componentRanges :=
  ⟨(C8_remove_frame comp0 1 (Add comp0 1 7 twoEnts).1
      (by decide) (by decide) (by decide) (by decide)).1,
   (C8_remove_frame comp0 1 (Add comp0 1 7 twoEnts).1
      (by decide) (by decide) (by decide) (by decide)).2.1,
   (C8_remove_frame comp0 1 (Add comp0 1 7 twoEnts).1
      (by decide) (by decide) (by decide) (by decide)).2.2.1,
   (C8_remove_frame comp0 1 (Add comp0 1 7 twoEnts).1
      (by decide) (by decide) (by decide) (by decide)).2.2.2.1⟩

/-- C9: in every reachable state (for any declared component list, whether
or not it contains `EntityID`), every active slot lies strictly below
`endSlot`, and `nrEntities` - the value returned by `Size()` - equals the
exact number of active slots. -/
theorem C9_active_below_frontier_and_size (eid : Option (Fin n)) (s : ECS n)
    (h : Reachable n eid s) :
    (∀ i, i < s.entities.length → (entAt s i).active = true → i < s.endSlot) ∧
    s.nrEntities = s.entities.countP (fun e => e.active) ∧
    Size s = s.entities.countP (fun e => e.active) := by
  have hw := wf_reachable h
  exact ⟨hw.active_lt, hw.count_eq, hw.count_eq⟩

/-- C9 witness: the invariant at the reachable two-entity state. -/
theorem C9_active_below_frontier_and_size_witness :
    (∀ i, i < twoEnts.entities.length → (entAt twoEnts i).active = true →
      i < twoEnts.endSlot) ∧
    twoEnts.nrEntities = twoEnts.entities.countP (fun e => e.active) ∧
    Size twoEnts = twoEnts.entities.countP (fun e => e.active) :=
  C9_active_below_frontier_and_size none twoEnts
    (Reachable.addEntity (Reachable.addEntity Reachable.init))

/-- C6 amended: in any well-formed state, `AddEntity` returns the lowest
inactive slot within the frontier (all lower slots are active; the slot
itself is inactive when it lies inside the frontier), so ids are strictly
increasing exactly while no hole exists, and the frontier grows only when
the returned slot equals `endSlot`.  Removing the entity stored in the
*last frontier slot* (`id + 1 = endSlot`) shrinks the frontier by one;
removing any lower active entity - even when it is the highest-indexed
*active* one, with an inactive hole above it - leaves the frontier
unchanged (see the counterexample for the original claim's stronger
reading). -/
theorem C6_lowest_free_slot_and_tail_compaction (eid : Option (Fin n)) (s : ECS n)
    (hw : WF s) :
    (∀ j, j < (AddEntity eid s).1.2 → (entAt s j).active = true) ∧
    ((AddEntity eid s).1.2 < s.endSlot → (entAt s (AddEntity eid s).1.2).active = false) ∧
    (AddEntity eid s).1.2 ≤ s.endSlot ∧
    ((AddEntity eid s).1.2 = s.endSlot → (AddEntity eid s).1.1.endSlot = s.endSlot + 1) ∧
    ((AddEntity eid s).1.2 < s.endSlot → (AddEntity eid s).1.1.endSlot = s.endSlot) ∧
    (∀ i, i ≠ SIZE_MAX → i + 1 = s.endSlot → (entAt s i).active = true →
      (RemoveEntity i s).2 = none ∧ (RemoveEntity i s).1.endSlot + 1 = s.endSlot) ∧
    (∀ i, i ≠ SIZE_MAX → i + 1 < s.endSlot → (entAt s i).active = true →
      (RemoveEntity i s).2 = none ∧ (RemoveEntity i s).1.endSlot = s.endSlot) := by
  have hret := AddEntity_ret eid s hw
  rw [hret, AddEntity_endSlot eid s]
  refine ⟨scanFirstEmpty_below_active s, fun h => scanFirstEmpty_not_active s h,
    scanFirstEmpty_le s, ?_, ?_, ?_, ?_⟩
  · intro hEq
    by_cases hL : scanFirstEmpty s = s.entities.length
    · rw [allocState_eq_append s hEq hL]
    · rw [allocState_eq_bump s hEq hL]
  · intro hLt
    rw [allocState_eq_same s hw (by omega)]
  · intro i hi h1 hact
    obtain ⟨e1, e2, _⟩ := RemoveEntity_success_spec i s hw hi (by omega) hact
    refine ⟨e1, ?_⟩
    rw [e2, if_pos (by omega)]
    omega
  · intro i hi h1 hact
    obtain ⟨e1, e2, _⟩ := RemoveEntity_success_spec i s hw hi (by omega) hact
    refine ⟨e1, ?_⟩
    rw [e2, if_neg (by omega)]

/-- C6 witness: at the reachable state with an inactive hole at slot 1 and
`endSlot = 2`, removing the (non-tail) active entity 0 succeeds and keeps
the frontier at 2, as the amended claim states. -/
theorem C6_lowest_free_slot_witness :
    (RemoveEntity 0 c6State).2 = none ∧ (RemoveEntity 0 c6State).1.endSlot = c6State.endSlot :=
  (C6_lowest_free_slot_and_tail_compaction none c6State
      (wf_reachable (Reachable.removeEntity 2 (Reachable.removeEntity 1
        (Reachable.addEntity (Reachable.addEntity (Reachable.addEntity
          Reachable.init))))))).2.2.2.2.2.2
    0 (by decide) (by decide) (by decide)

/-- C7: the add/remove symmetry for an active entity with a valid in-bounds
handle and component `T` not yet present: `Add<T>(E,v)` succeeds, after
which `Has<T>(E)` is true and `Get<T>(E)` yields `v`; `Remove<T>(E)`
succeeds, after which `Has<T>(E)` is false; a second `Remove<T>(E)` fails
with the not-present logic error and changes nothing; and a subsequent
`Add<T>(E,v2)` succeeds, after which `Get<T>(E)` yields `v2`. -/
theorem C7_add_remove_symmetry (t : Fin n) (id v v2 : Nat) (s : ECS n)
    (hid : id ≠ SIZE_MAX) (hlt : id < s.endSlot) (hlen : id < s.entities.length)
    (hclen : id < (s.componentArrays t).length)
    (hact : (entAt s id).active = true)
    (hflag : HasInternal t id s = false) :
    (Add t id v s).2 = none ∧
    Has [t] id (Add t id v s).1 = .ok true ∧
    Get t id (Add t id v s).1 = .ok v ∧
    (Remove t id (Add t id v s).1).2 = none ∧
    Has [t] id (Remove t id (Add t id v s).1).1 = .ok false ∧
    Remove t id (Remove t id (Add t id v s).1).1
      = ((Remove t id (Add t id v s).1).1, some (.logicError "Component not active!")) ∧
    (Add t id v2 (Remove t id (Add t id v s).1).1).2 = none ∧
    Get t id (Add t id v2 (Remove t id (Add t id v s).1).1).1 = .ok v2 := by
  obtain ⟨a1, a2, a3, a4, a5, a6, a7, a8, a9, a10, a11⟩ :=
    Add_success_spec t id v s hid hlt hlen hflag
  have hlt1 : id < (Add t id v s).1.endSlot := by rw [a2]; exact hlt
  have hlen1 : id < (Add t id v s).1.entities.length := by rw [a4]; exact hlen
  obtain ⟨r1, r2, r3, r4, r5, r6, r7, r8, r9, r10⟩ :=
    Remove_success_spec t id (Add t id v s).1 hid hlt1 hlen1 a6
  have hlt2 : id < (Remove t id (Add t id v s).1).1.endSlot := by rw [r2]; exact hlt1
  have hlen2 : id < (Remove t id (Add t id v s).1).1.entities.length := by
    rw [r4]; exact hlen1
  obtain ⟨b1, b2, b3, b4, b5, b6, b7, b8, b9, b10, b11⟩ :=
    Add_success_spec t id v2 (Remove t id (Add t id v s).1).1 hid hlt2 hlen2 r7
  refine ⟨a1, ?_, ?_, r1, ?_, ?_, b1, ?_⟩
  · rw [Has_ok [t] id _ hid]
    simp [a6]
  · rw [Get_ok t id _ hid a6 hlt1, a10 hclen]
  · rw [Has_ok [t] id _ hid]
    simp [r7]
  · exact Remove_not_present t id _ hid hlt2 r7
  · have hc2 : id < ((Remove t id (Add t id v s).1).1.componentArrays t).length := by
      rw [r5, a5 t]
      exact hclen
    rw [Get_ok t id _ hid b6 (by rw [b2]; exact hlt2), b10 hc2]

/-- C7 witness: the full chain on entity 1 of the two-entity store with
values 5 and 9. -/
theorem C7_add_remove_symmetry_witness :
    (Add comp0 1 5 twoEnts).2 = none ∧
    Has [comp0] 1 (Add comp0 1 5 twoEnts).1 = .ok true ∧
    Get comp0 1 (Add comp0 1 5 twoEnts).1 = .ok 5 ∧
    Has [comp0] 1 (Remove comp0 1 (Add comp0 1 5 twoEnts).1).1 = .ok false ∧
    Get comp0 1 (Add comp0 1 9 (Remove comp0 1 (Add comp0 1 5 twoEnts).1).1).1 = .ok 9 :=
  ⟨(C7_add_remove_symmetry comp0 1 5 9 twoEnts (by decide) (by decide) (by decide)
      (by decide) (by decide) (by decide)).1,
   (C7_add_remove_symmetry comp0 1 5 9 twoEnts (by decide) (by decide) (by decide)
      (by decide) (by decide) (by decide)).2.1,
   (C7_add_remove_symmetry comp0 1 5 9 twoEnts (by decide) (by decide) (by decide)
      (by decide) (by decide) (by decide)).2.2.1,
   (C7_add_remove_symmetry comp0 1 5 9 twoEnts (by decide) (by decide) (by decide)
      (by decide) (by decide) (by decide)).2.2.2.2.1,
   (C7_add_remove_symmetry comp0 1 5 9 twoEnts (by decide) (by decide) (by decide)
      (by decide) (by decide) (by decide)).2.2.2.2.2.2.2⟩

/-- C10: when `EntityID` is itself one of the declared component types
(`eid = some t`), `AddEntity` finishes by adding the new entity's own handle
as that component, so immediately after creation the returned error is none,
`Has<EntityID>(handle)` is true and `Get<EntityID>(handle)` returns the
handle itself.  (`BuildEntity` begins with this very `AddEntity` call.) -/
theorem C10_addEntity_auto_entityid (t : Fin n) (s : ECS n) (hw : WF s)
    (hsz : s.entities.length < SIZE_MAX) :
    (AddEntity (some t) s).2 = none ∧
    Has [t] (AddEntity (some t) s).1.2 (AddEntity (some t) s).1.1 = .ok true ∧
    Get t (AddEntity (some t) s).1.2 (AddEntity (some t) s).1.1
      = .ok (AddEntity (some t) s).1.2 := by
  obtain ⟨hwA, hnr, hlt, hge, hle, hlenA, hinact, hidA⟩ := allocState_spec s hw
  have hkSZ : scanFirstEmpty s ≠ SIZE_MAX := by
    have h1 := scanFirstEmpty_le s
    have h2 := hw.endSlot_le
    omega
  have hNid : newId s = scanFirstEmpty s := hidA
  have hActSelf : entAt (activateSlot (allocState s) (scanFirstEmpty s)) (scanFirstEmpty s)
      = { entAt (allocState s) (scanFirstEmpty s) with
          active := true, activeComponents := fun _ => false } :=
    entAt_setEnt_self (allocState s) (scanFirstEmpty s) _ hlenA
  have hflagAct : HasInternal t (scanFirstEmpty s)
      (activateSlot (allocState s) (scanFirstEmpty s)) = false := by
    show (entAt (activateSlot (allocState s) (scanFirstEmpty s)) (scanFirstEmpty s)
      ).activeComponents t = false
    rw [hActSelf]
  have hltAct : scanFirstEmpty s < (activateSlot (allocState s) (scanFirstEmpty s)).endSlot :=
    hlt
  have hlenAct : scanFirstEmpty s
      < (activateSlot (allocState s) (scanFirstEmpty s)).entities.length := by
    show scanFirstEmpty s < ((allocState s).entities.set (scanFirstEmpty s) _).length
    simpa using hlenA
  have hclenAct : scanFirstEmpty s
      < ((activateSlot (allocState s) (scanFirstEmpty s)).componentArrays t).length := by
    show scanFirstEmpty s < ((allocState s).componentArrays t).length
    rw [hwA.cols_len t]
    exact hlenA
  obtain ⟨a1, a2, a3, a4, a5, a6, a7, a8, a9, a10, a11⟩ :=
    Add_success_spec t (scanFirstEmpty s) (scanFirstEmpty s)
      (activateSlot (allocState s) (scanFirstEmpty s)) hkSZ hltAct hlenAct hflagAct
  unfold AddEntity
  cases hV2 : ValidateID (allocState s) (scanFirstEmpty s) with
  | some e =>
    rw [(validateID_none (allocState s) (scanFirstEmpty s)).2 hlt] at hV2
    cases hV2
  | none =>
    rw [hNid]
    refine ⟨a1, ?_, ?_⟩
    · rw [Has_ok [t] (scanFirstEmpty s) _ hkSZ]
      simp [a6]
    · rw [Get_ok t (scanFirstEmpty s) _ hkSZ a6 (by rw [a2]; exact hltAct),
        a10 hclenAct]

/-- C10 witness: on the empty store whose single declared component type is
`EntityID`, the first created entity carries its own handle as component. -/
theorem C10_addEntity_auto_entityid_witness :
    (AddEntity (some comp0) (ECS.init 1)).2 = none ∧
    Has [comp0] (AddEntity (some comp0) (ECS.init 1)).1.2
      (AddEntity (some comp0) (ECS.init 1)).1.1 = .ok true ∧
    Get comp0 (AddEntity (some comp0) (ECS.init 1)).1.2
      (AddEntity (some comp0) (ECS.init 1)).1.1
      = .ok (AddEntity (some comp0) (ECS.init 1)).1.2 :=
  C10_addEntity_auto_entityid comp0 (ECS.init 1) wf_init (by decide)

end EcsCpp

